import Mathlib

/-!
Shallow embedding of the `OryProvider` OAuth adapter (`src/index.ts` of the
`ory/mcp` repository, package `@ory/mcp-oauth-provider`).

Outbound HTTP is modelled by an oracle `Nat → HttpResponse` giving the
response to the n-th `fetch` issued by an operation; every operation returns,
next to its result, the list of requests it issued, in order.  JavaScript
string interpolation of `undefined` and JavaScript truthiness of optional
strings are modelled explicitly (`jsStr`, `strTruthy`).
-/

namespace OryMcp

/-- JS template-literal interpolation of a possibly-undefined string:
`undefined` prints as the literal string "undefined". -/
def jsStr : Option String → String
  | some s => s
  | none => "undefined"

/-- JS truthiness of an optional string: `undefined` and the empty string are
falsy, every other string is truthy. -/
def strTruthy : Option String → Bool
  | some s => !(s == "")
  | none => false

/-- JS strict test `xs?.length === 0`: true exactly when the optional array is
present and empty. -/
def scopesEmpty : Option (List String) → Bool
  | some l => l.isEmpty
  | none => false

/-- JS truthiness of `xs?.length`: true exactly when the optional array is
present and non-empty. -/
def scopesTruthy : Option (List String) → Bool
  | some l => !l.isEmpty
  | none => false

/-- Lower-case hex digit, as produced by Node `Buffer.toString` in hex mode. -/
def hexDigit (n : Nat) : Char :=
  "0123456789abcdef".toList.getD n '0'

/-- Hex encoding of a byte list, two digits per byte. -/
def hexEncodeList : List Nat → List Char
  | [] => []
  | b :: bs => hexDigit (b / 16 % 16) :: hexDigit (b % 16) :: hexEncodeList bs

/-- Node `Buffer.from(bytes).toString` in hex mode. -/
def hexEncode (bs : List Nat) : String :=
  String.mk (hexEncodeList bs)

/-- The standard base64 alphabet. -/
def base64Chars : List Char :=
  "ABCDEFGHIJKLMNOPQRSTUVWXYZabcdefghijklmnopqrstuvwxyz0123456789+/".toList

/-- Character of the base64 alphabet at a 6-bit index. -/
def b64At (i : Nat) : Char :=
  base64Chars.getD i 'A'

/-- Base64 encoding of a byte list, with padding. -/
def base64EncodeList : List Nat → List Char
  | [] => []
  | [b1] => [b64At (b1 / 4), b64At (b1 % 4 * 16), '=', '=']
  | [b1, b2] => [b64At (b1 / 4), b64At (b1 % 4 * 16 + b2 / 16), b64At (b2 % 16 * 4), '=']
  | b1 :: b2 :: b3 :: rest =>
    b64At (b1 / 4) :: b64At (b1 % 4 * 16 + b2 / 16) ::
      b64At (b2 % 16 * 4 + b3 / 64) :: b64At (b3 % 64) :: base64EncodeList rest

/-- Node `Buffer.from(s).toString` in base64 mode: UTF-8 bytes, base64. -/
def base64Encode (s : String) : String :=
  String.mk (base64EncodeList (s.toUTF8.toList.map (fun b => b.toNat)))

/-- Boolean test that the needle list sits at the front of the haystack. -/
def charListPre : List Char → List Char → Bool
  | [], _ => true
  | _ :: _, [] => false
  | a :: as, b :: bs => a == b && charListPre as bs

/-- Boolean test that the needle list occurs somewhere inside the haystack. -/
def charListInf (n : List Char) : List Char → Bool
  | [] => charListPre n []
  | b :: bs => charListPre n (b :: bs) || charListInf n bs

/-- String containment, JS `message.includes(needle)`. -/
def strContains (h n : String) : Bool :=
  charListInf n.toList h.toList

/-- The two supported backend flavors. -/
inductive OryProviderType where
  | network
  | hydra
deriving DecidableEq, Repr

/-- The `OryEndpoints` record of the source. -/
structure OryEndpoints where
  authorizationUrl : String
  tokenUrl : String
  revocationUrl : Option String
  registrationUrl : Option String
deriving DecidableEq, Repr

/-- The `OryOptions` record of the source; the constructor copies all fields,
so a provider instance is just this record. -/
structure OryOptions where
  endpoints : OryEndpoints
  providerType : OryProviderType
  hydraAdminUrl : Option String
  hydraApiKey : Option String
  networkProjectUrl : Option String
  networkProjectApiKey : Option String
deriving DecidableEq, Repr

/-- A raw (not yet schema-validated) client payload as delivered by the
backend; optional fields model possibly-missing JSON keys. -/
structure RawClient where
  client_id : Option String
  client_secret : Option String
  redirect_uris : Option (List String)
  scope : Option String
deriving DecidableEq, Repr

/-- A schema-validated `OAuthClientInformationFull` value. -/
structure OAuthClientInformationFull where
  client_id : String
  client_secret : Option String
  redirect_uris : List String
  scope : Option String
deriving DecidableEq, Repr

/-- Zod validation `OAuthClientInformationFullSchema.parse`: requires `client_id` and
`redirect_uris` to be present. -/
def parseClient (r : RawClient) : Except String OAuthClientInformationFull :=
  match r.client_id, r.redirect_uris with
  | some cid, some uris =>
    .ok { client_id := cid, client_secret := r.client_secret,
          redirect_uris := uris, scope := r.scope }
  | _, _ => .error "invalid client payload"

/-- Schema validation of every element of a client-list body. -/
def parseClients (rs : List RawClient) : Except String (List OAuthClientInformationFull) :=
  rs.mapM parseClient

/-- A raw token payload as delivered by the token endpoint. -/
structure RawTokens where
  access_token : Option String
  token_type : Option String
  expires_in : Option Nat
  scope : Option String
  refresh_token : Option String
deriving DecidableEq, Repr

/-- A schema-validated `OAuthTokens` value. -/
structure OAuthTokens where
  access_token : String
  token_type : String
  expires_in : Option Nat
  scope : Option String
  refresh_token : Option String
deriving DecidableEq, Repr

/-- Zod validation `OAuthTokensSchema.parse`: requires `access_token` and `token_type`. -/
def parseTokens (r : RawTokens) : Except String OAuthTokens :=
  match r.access_token, r.token_type with
  | some a, some t =>
    .ok { access_token := a, token_type := t, expires_in := r.expires_in,
          scope := r.scope, refresh_token := r.refresh_token }
  | _, _ => .error "invalid token payload"

/-- An introspection response body, per the type the source casts to. -/
structure IntrospectionBody where
  active : Bool
  client_id : String
  scope : Option String
  exp : Nat
deriving DecidableEq, Repr

/-- The `AuthInfo` value returned by `verifyAccessToken`. -/
structure AuthInfo where
  token : String
  clientId : String
  scopes : List String
  expiresAt : Nat
deriving DecidableEq, Repr

/-- The `AuthorizationParams` argument of `authorize`. -/
structure AuthorizationParams where
  redirectUri : String
  codeChallenge : String
  scopes : Option (List String)
  state : Option String
deriving DecidableEq, Repr

/-- The target of the `res.redirect` call: the configured authorization URL
together with the query parameters attached to it. -/
structure RedirectTarget where
  base : String
  query : List (String × String)
deriving DecidableEq, Repr

/-- The `OAuthTokenRevocationRequest` argument of `revokeToken`. -/
structure OAuthTokenRevocationRequest where
  token : String
  token_type_hint : Option String
deriving DecidableEq, Repr

/-- A response body, typed by endpoint shape. -/
inductive HttpBody where
  | clients (cs : List RawClient)
  | introspection (i : IntrospectionBody)
  | tokens (t : RawTokens)
  | empty
deriving DecidableEq, Repr

/-- An HTTP response as observed through `fetch`. -/
structure HttpResponse where
  ok : Bool
  status : Nat
  statusText : String
  body : HttpBody
deriving DecidableEq, Repr

/-- An outbound HTTP request; the form body is kept as its parameter list,
abstracting the urlencoded serialization. -/
structure HttpRequest where
  method : String
  url : String
  headers : List (String × String)
  body : Option (List (String × String))
deriving DecidableEq, Repr

/-- An oracle giving the response to the n-th request of an operation. -/
abbrev Oracle := Nat → HttpResponse

/-- The error taxonomy of the source: plain `Error`, SDK `ServerError`, and
zod schema-validation failure. -/
inductive OryError where
  | err (msg : String)
  | serverErr (msg : String)
  | validationErr (msg : String)
deriving DecidableEq, Repr

/-- Whether `clientsStore` spreads in a `registerClient` member:
`...(registrationUrl && \x7b ... \x7d)`, a JS truthiness test. -/
def registerClientDefined (o : OryOptions) : Bool :=
  strTruthy o.endpoints.registrationUrl

/-- Whether the constructor assigns the `revokeToken` member:
`if (options.endpoints?.revocationUrl)`, a JS truthiness test. -/
def revokeTokenDefined (o : OryOptions) : Bool :=
  strTruthy o.endpoints.revocationUrl

/-- The client-list request built by `fetchClients` for the selected backend. -/
def clientListRequest (o : OryOptions) : HttpRequest :=
  match o.providerType with
  | .hydra =>
    { method := "GET"
      url := jsStr o.hydraAdminUrl ++ "/admin/clients"
      headers := [("Authorization", "Bearer " ++ jsStr o.hydraApiKey),
                  ("Content-Type", "application/json")]
      body := none }
  | .network =>
    { method := "GET"
      url := jsStr o.networkProjectUrl ++ "/admin/clients"
      headers := [("Authorization", "Bearer " ++ jsStr o.networkProjectApiKey),
                  ("Content-Type", "application/json")]
      body := none }

/-- The private method `fetchClients`: dispatch on the provider type, check the matching base URL
(JS truthiness — the API key is not checked), issue one GET, then check
`response.ok` and schema-validate the body. -/
def fetchClients (o : OryOptions) (oracle : Oracle) :
    Except OryError (List OAuthClientInformationFull) × List HttpRequest :=
  match o.providerType with
  | .hydra =>
    if !(strTruthy o.hydraAdminUrl) then
      (.error (.err "Hydra admin URL is required for hydra provider type"), [])
    else
      let req := clientListRequest o
      let resp := oracle 0
      if !resp.ok then
        (.error (.err ("Failed to list OAuth2 clients: " ++ resp.statusText)), [req])
      else
        match resp.body with
        | .clients rcs =>
          match parseClients rcs with
          | .ok cs => (.ok cs, [req])
          | .error m => (.error (.validationErr m), [req])
        | _ => (.error (.validationErr "response body is not a client list"), [req])
  | .network =>
    if !(strTruthy o.networkProjectUrl) then
      (.error (.err "Network project URL is required for network provider type"), [])
    else
      let req := clientListRequest o
      let resp := oracle 0
      if !resp.ok then
        (.error (.err ("Failed to list OAuth2 clients: " ++ resp.statusText)), [req])
      else
        match resp.body with
        | .clients rcs =>
          match parseClients rcs with
          | .ok cs => (.ok cs, [req])
          | .error m => (.error (.validationErr m), [req])
        | _ => (.error (.validationErr "response body is not a client list"), [req])

/-- JS object assignment `acc[c.client_id] = c` on an insertion-ordered
record: replace the first binding with that key, else append. -/
def insertClient :
    List (String × OAuthClientInformationFull) → OAuthClientInformationFull →
    List (String × OAuthClientInformationFull)
  | [], c => [(c.client_id, c)]
  | p :: ps, c =>
    if p.1 == c.client_id then (p.1, c) :: ps else p :: insertClient ps c

/-- The `reduce` in `listOAuth2Clients`, building the record keyed by
`client_id`. -/
def buildClientMap (cs : List OAuthClientInformationFull) :
    List (String × OAuthClientInformationFull) :=
  cs.foldl insertClient []

/-- JS record member lookup `clients[clientId]`. -/
def lookupClient :
    List (String × OAuthClientInformationFull) → String →
    Option OAuthClientInformationFull
  | [], _ => none
  | p :: ps, cid => if p.1 == cid then some p.2 else lookupClient ps cid

/-- The method `listOAuth2Clients`: fetch, then build the record; the catch block only
logs and rethrows. -/
def listOAuth2Clients (o : OryOptions) (oracle : Oracle) :
    Except OryError (List (String × OAuthClientInformationFull)) × List HttpRequest :=
  match fetchClients o oracle with
  | (.ok cs, reqs) => (.ok (buildClientMap cs), reqs)
  | (.error e, reqs) => (.error e, reqs)

/-- The method `getClient`: list all clients and index by the requested id; the catch
block only logs and rethrows. -/
def getClient (o : OryOptions) (clientId : String) (oracle : Oracle) :
    Except OryError (Option OAuthClientInformationFull) × List HttpRequest :=
  match listOAuth2Clients o oracle with
  | (.ok m, reqs) => (.ok (lookupClient m clientId), reqs)
  | (.error e, reqs) => (.error e, reqs)

/-- The state defaulting at the top of `authorize`: when `params.state` is
falsy, 32 random bytes are drawn and hex-encoded. -/
def defaultedState (state : Option String) (randomBytes : List Nat) : Option String :=
  if strTruthy state then state else some (hexEncode randomBytes)

/-- The scope defaulting in `authorize`: `params.scopes?.length === 0`
replaces the scopes with the fixed default list. -/
def defaultedScopes (scopes : Option (List String)) : Option (List String) :=
  if scopesEmpty scopes then some ["ory.admin"] else scopes

/-- Lookup of a query parameter in the constructed search params. -/
def queryLookup : List (String × String) → String → Option String
  | [], _ => none
  | p :: ps, k => if p.1 == k then some p.2 else queryLookup ps k

/-- The method `authorize`: default state and scopes on the params object (mutation is
modelled by returning the updated params), build the search params, and
redirect to the authorization URL carrying them. -/
def authorize (o : OryOptions) (client : OAuthClientInformationFull)
    (params : AuthorizationParams) (randomBytes : List Nat) :
    AuthorizationParams × RedirectTarget :=
  let params1 := { params with state := defaultedState params.state randomBytes }
  let params2 := { params1 with scopes := defaultedScopes params1.scopes }
  let query :=
    [("client_id", client.client_id),
     ("response_type", "code"),
     ("redirect_uri", params2.redirectUri),
     ("code_challenge", params2.codeChallenge),
     ("code_challenge_method", "S256")] ++
    (if strTruthy params2.state then [("state", jsStr params2.state)] else []) ++
    (if scopesTruthy params2.scopes then
      [("scope", String.intercalate " " (params2.scopes.getD []))] else [])
  (params2, { base := o.endpoints.authorizationUrl, query := query })

/-- The method `exchangeAuthorizationCode`: one POST to the token URL; non-2xx fails
with `ServerError` carrying the numeric status; 2xx is schema-validated. -/
def exchangeAuthorizationCode (o : OryOptions) (client : OAuthClientInformationFull)
    (authorizationCode : String) (codeVerifier : Option String) (oracle : Oracle) :
    Except OryError OAuthTokens × List HttpRequest :=
  let ps :=
    [("grant_type", "authorization_code"),
     ("client_id", client.client_id),
     ("code", authorizationCode),
     ("redirect_uri", jsStr client.redirect_uris.head?)] ++
    (if strTruthy client.client_secret then
      [("client_secret", jsStr client.client_secret)] else []) ++
    (if strTruthy codeVerifier then [("code_verifier", jsStr codeVerifier)] else [])
  let req : HttpRequest :=
    { method := "POST", url := o.endpoints.tokenUrl,
      headers := [("Content-Type", "application/x-www-form-urlencoded")],
      body := some ps }
  let resp := oracle 0
  if !resp.ok then
    (.error (.serverErr ("Token exchange failed: " ++ toString resp.status)), [req])
  else
    match resp.body with
    | .tokens rt =>
      match parseTokens rt with
      | .ok t => (.ok t, [req])
      | .error m => (.error (.validationErr m), [req])
    | _ => (.error (.validationErr "response body is not a token payload"), [req])

/-- The introspection request built by `introspectToken` for the selected
backend: Basic-over-token auth for hydra, Bearer API key for network. -/
def introspectRequest (o : OryOptions) (token : String) : HttpRequest :=
  match o.providerType with
  | .hydra =>
    { method := "POST"
      url := jsStr o.hydraAdminUrl ++ "/admin/oauth2/introspect"
      headers := [("Content-Type", "application/x-www-form-urlencoded"),
                  ("Authorization", "Basic " ++ base64Encode token)]
      body := some [("token", token), ("token_type_hint", "access_token")] }
  | .network =>
    { method := "POST"
      url := jsStr o.networkProjectUrl ++ "/admin/oauth2/introspect"
      headers := [("Content-Type", "application/x-www-form-urlencoded"),
                  ("Authorization", "Bearer " ++ jsStr o.networkProjectApiKey)]
      body := some [("token", token), ("token_type_hint", "access_token")] }

/-- The private method `introspectToken`: dispatch on the provider type, check the matching base
URL (JS truthiness), issue one POST, check `response.ok`; the body is cast,
not schema-validated, by the source. -/
def introspectToken (o : OryOptions) (token : String) (oracle : Oracle) :
    Except OryError IntrospectionBody × List HttpRequest :=
  match o.providerType with
  | .hydra =>
    if !(strTruthy o.hydraAdminUrl) then
      (.error (.err "Hydra admin URL is required for hydra provider type"), [])
    else
      let req := introspectRequest o token
      let resp := oracle 0
      if !resp.ok then
        (.error (.err ("Token introspection failed: " ++ resp.statusText)), [req])
      else
        match resp.body with
        | .introspection i => (.ok i, [req])
        | _ => (.error (.validationErr "response body is not an introspection payload"), [req])
  | .network =>
    if !(strTruthy o.networkProjectUrl) then
      (.error (.err "Network project URL is required for network provider type"), [])
    else
      let req := introspectRequest o token
      let resp := oracle 0
      if !resp.ok then
        (.error (.err ("Token introspection failed: " ++ resp.statusText)), [req])
      else
        match resp.body with
        | .introspection i => (.ok i, [req])
        | _ => (.error (.validationErr "response body is not an introspection payload"), [req])

/-- The method `verifyAccessToken`: introspect; fail when inactive; otherwise list the
clients (the second fetch reads the oracle after the first one) and require
the introspected `client_id` to be present; the catch block only logs and
rethrows. -/
def verifyAccessToken (o : OryOptions) (token : String) (oracle : Oracle) :
    Except OryError AuthInfo × List HttpRequest :=
  match introspectToken o token oracle with
  | (.error e, reqs) => (.error e, reqs)
  | (.ok i, reqs) =>
    if !i.active then
      (.error (.err "Token is not active"), reqs)
    else
      match listOAuth2Clients o (fun n => oracle (n + reqs.length)) with
      | (.error e, reqs2) => (.error e, reqs ++ reqs2)
      | (.ok clients, reqs2) =>
        match lookupClient clients i.client_id with
        | none => (.error (.err "Token client ID mismatch"), reqs ++ reqs2)
        | some _ =>
          (.ok { token := token
                 clientId := i.client_id
                 scopes := (i.scope.map (fun s => s.splitOn " ")).getD []
                 expiresAt := i.exp }, reqs ++ reqs2)

/-- The `revokeToken` closure assigned by the constructor (callable only when
`revokeTokenDefined`): one POST to the revocation URL; non-2xx fails with
`ServerError` carrying the numeric status. -/
def revokeToken (o : OryOptions) (client : OAuthClientInformationFull)
    (request : OAuthTokenRevocationRequest) (oracle : Oracle) :
    Except OryError Unit × List HttpRequest :=
  if !(strTruthy o.endpoints.revocationUrl) then
    (.error (.err "No revocation endpoint configured"), [])
  else
    let ps :=
      [("token", request.token), ("client_id", client.client_id)] ++
      (if strTruthy client.client_secret then
        [("client_secret", jsStr client.client_secret)] else []) ++
      (if strTruthy request.token_type_hint then
        [("token_type_hint", jsStr request.token_type_hint)] else [])
    let req : HttpRequest :=
      { method := "POST", url := jsStr o.endpoints.revocationUrl,
        headers := [("Content-Type", "application/x-www-form-urlencoded")],
        body := some ps }
    let resp := oracle 0
    if !resp.ok then
      (.error (.serverErr ("Token revocation failed: " ++ toString resp.status)), [req])
    else (.ok (), [req])

/-- Whether the base URL matching the configured provider type is truthy —
the only configuration check performed before backend calls. -/
def backendUrlPresent (o : OryOptions) : Bool :=
  match o.providerType with
  | .hydra => strTruthy o.hydraAdminUrl
  | .network => strTruthy o.networkProjectUrl

/-- The fail-fast message raised when the matching base URL is missing. -/
def missingUrlMsg (o : OryOptions) : String :=
  match o.providerType with
  | .hydra => "Hydra admin URL is required for hydra provider type"
  | .network => "Network project URL is required for network provider type"

/-- Concrete endpoint set used by the concrete-input theorems. -/
def endpointsW : OryEndpoints :=
  { authorizationUrl := "https://auth.example.com/oauth2/auth"
    tokenUrl := "https://auth.example.com/oauth2/token"
    revocationUrl := some "https://auth.example.com/oauth2/revoke"
    registrationUrl := some "https://auth.example.com/clients" }

/-- Concrete network-backend configuration. -/
def oNet : OryOptions :=
  { endpoints := endpointsW
    providerType := .network
    hydraAdminUrl := none
    hydraApiKey := none
    networkProjectUrl := some "https://network.example.com/admin"
    networkProjectApiKey := some "network-api-key" }

/-- Concrete hydra-backend configuration. -/
def oHydra : OryOptions :=
  { endpoints := endpointsW
    providerType := .hydra
    hydraAdminUrl := some "https://hydra.example.com/admin"
    hydraApiKey := some "hydra-api-key"
    networkProjectUrl := none
    networkProjectApiKey := none }

/-- Network configuration whose base URL is set but whose API key is absent. -/
def oNoKey : OryOptions :=
  { endpoints := endpointsW
    providerType := .network
    hydraAdminUrl := none
    hydraApiKey := none
    networkProjectUrl := some "https://proj.example.com"
    networkProjectApiKey := none }

/-- Network configuration whose base URL is absent. -/
def oNoUrl : OryOptions :=
  { endpoints := endpointsW
    providerType := .network
    hydraAdminUrl := none
    hydraApiKey := none
    networkProjectUrl := none
    networkProjectApiKey := some "network-api-key" }

/-- Configuration whose registration and revocation URLs are set to the empty
string. -/
def oEmptyUrls : OryOptions :=
  { endpoints :=
      { authorizationUrl := "https://auth.example.com/oauth2/auth"
        tokenUrl := "https://auth.example.com/oauth2/token"
        revocationUrl := some ""
        registrationUrl := some "" }
    providerType := .network
    hydraAdminUrl := none
    hydraApiKey := none
    networkProjectUrl := some "https://network.example.com/admin"
    networkProjectApiKey := some "network-api-key" }

/-- Concrete registered client. -/
def clientW : OAuthClientInformationFull :=
  { client_id := "test-client"
    client_secret := some "test-secret"
    redirect_uris := ["http://localhost:3000/callback"]
    scope := some "openid profile" }

/-- Concrete raw client payload that validates to `clientW`. -/
def rawClientW : RawClient :=
  { client_id := some "test-client"
    client_secret := some "test-secret"
    redirect_uris := some ["http://localhost:3000/callback"]
    scope := some "openid profile" }

/-- Concrete active introspection body. -/
def introActiveW : IntrospectionBody :=
  { active := true, client_id := "test-client",
    scope := some "openid profile", exp := 1700000000 }

/-- Concrete inactive introspection body. -/
def introInactiveW : IntrospectionBody :=
  { active := false, client_id := "test-client",
    scope := some "openid profile", exp := 1700000000 }

/-- Concrete successful introspection response (active token). -/
def respIntroActive : HttpResponse :=
  { ok := true, status := 200, statusText := "OK", body := .introspection introActiveW }

/-- Concrete successful introspection response (inactive token). -/
def respIntroInactive : HttpResponse :=
  { ok := true, status := 200, statusText := "OK", body := .introspection introInactiveW }

/-- Concrete successful client-list response containing `rawClientW`. -/
def respClientsW : HttpResponse :=
  { ok := true, status := 200, statusText := "OK", body := .clients [rawClientW] }

/-- Oracle delivering an inactive-token introspection response. -/
def oracleInactive : Oracle := fun _ => respIntroInactive

/-- Oracle delivering an active introspection then the client list. -/
def oracleActiveThenClients : Oracle :=
  fun n => if n == 0 then respIntroActive else respClientsW

/-- Oracle delivering the client list on every request. -/
def oracleClientsW : Oracle := fun _ => respClientsW

/-- Oracle delivering an empty client list on every request. -/
def oracleEmptyClients : Oracle :=
  fun _ => { ok := true, status := 200, statusText := "OK", body := .clients [] }

/-- Oracle delivering a 400 failure on every request. -/
def oracleTokenFail : Oracle :=
  fun _ => { ok := false, status := 400, statusText := "Bad Request", body := .empty }

/-- Concrete authorization params with state and scopes supplied. -/
def paramsW : AuthorizationParams :=
  { redirectUri := "http://localhost:3000/callback"
    codeChallenge := "challenge"
    scopes := some ["openid", "profile"]
    state := some "state123" }

/-- Concrete authorization params without a state. -/
def paramsNoState : AuthorizationParams :=
  { paramsW with state := none }

/-- Concrete authorization params whose state is the empty string. -/
def paramsStateEmpty : AuthorizationParams :=
  { paramsW with state := some "" }

/-- Concrete authorization params whose scope list is empty. -/
def paramsScopesEmpty : AuthorizationParams :=
  { paramsW with scopes := some [] }

/-- Concrete stand-in for the output of `crypto.randomBytes(32)`. -/
def bytesW : List Nat := List.range 32

/-- Concrete revocation request. -/
def revReqW : OAuthTokenRevocationRequest :=
  { token := "test-token", token_type_hint := none }

/-- A list is at the front of itself. -/
theorem charListPre_refl (l : List Char) : charListPre l l = true := by
  induction l with
  | nil => rfl
  | cons a as ih => simp [charListPre, ih]

/-- Being at the front survives extending the haystack on the right. -/
theorem charListPre_append (n a b : List Char) (h : charListPre n a = true) :
    charListPre n (a ++ b) = true := by
  induction n generalizing a with
  | nil => rfl
  | cons x xs ih =>
    cases a with
    | nil => simp [charListPre] at h
    | cons y ys =>
      simp only [charListPre, Bool.and_eq_true] at h
      simp [charListPre, h.1, ih ys h.2]

/-- Occurring at the front implies occurring inside. -/
theorem charListInf_of_pre (n l : List Char) (h : charListPre n l = true) :
    charListInf n l = true := by
  cases l with
  | nil => simpa [charListInf] using h
  | cons b bs => simp [charListInf, h]

/-- Occurring inside survives extending the haystack on the left. -/
theorem charListInf_append_left (n a l : List Char) (h : charListInf n l = true) :
    charListInf n (a ++ l) = true := by
  induction a with
  | nil => simpa using h
  | cons x xs ih => simp [charListInf, ih]

/-- Lists of appended strings concatenate. -/
theorem strToList_append (a b : String) : (a ++ b).toList = a.toList ++ b.toList := rfl

/-- A string whose character list starts a prefix of the haystack is contained
in any right extension of it. -/
theorem strContains_of_pre (a b n : String)
    (h : charListPre n.toList a.toList = true) :
    strContains (a ++ b) n = true := by
  unfold strContains
  rw [strToList_append]
  exact charListInf_of_pre _ _ (charListPre_append _ _ _ h)

/-- A string contains its own right end. -/
theorem strContains_append_right (a b : String) : strContains (a ++ b) b = true := by
  unfold strContains
  rw [strToList_append]
  exact charListInf_append_left _ _ _ (charListInf_of_pre _ _ (charListPre_refl _))

/-- Looking up the inserted key finds the inserted client. -/
theorem lookupClient_insertClient_self
    (acc : List (String × OAuthClientInformationFull)) (c : OAuthClientInformationFull) :
    lookupClient (insertClient acc c) c.client_id = some c := by
  induction acc with
  | nil => simp [insertClient, lookupClient]
  | cons p ps ih =>
    by_cases h : (p.1 == c.client_id) = true
    · simp [insertClient, lookupClient, h]
    · simp only [insertClient, h]
      simp [lookupClient, h, ih]

/-- Insertion does not disturb lookups of other keys. -/
theorem lookupClient_insertClient_ne
    (acc : List (String × OAuthClientInformationFull)) (c : OAuthClientInformationFull)
    (cid : String) (hne : cid ≠ c.client_id) :
    lookupClient (insertClient acc c) cid = lookupClient acc cid := by
  induction acc with
  | nil =>
    have hb : (c.client_id == cid) = false := beq_eq_false_iff_ne.mpr (Ne.symm hne)
    simp [insertClient, lookupClient, hb]
  | cons p ps ih =>
    by_cases h : (p.1 == c.client_id) = true
    · have hp : p.1 = c.client_id := eq_of_beq h
      have hb : (p.1 == cid) = false := by
        rw [hp]; exact beq_eq_false_iff_ne.mpr (Ne.symm hne)
      simp [insertClient, lookupClient, h, hb]
    · simp only [insertClient, h]
      by_cases h2 : (p.1 == cid) = true
      · simp [lookupClient, h2]
      · simp [lookupClient, h2, ih]

/-- Folding in clients with other ids does not disturb a lookup. -/
theorem lookupClient_foldl_not_mem
    (cs : List OAuthClientInformationFull)
    (acc : List (String × OAuthClientInformationFull)) (cid : String)
    (h : cid ∉ cs.map (fun c => c.client_id)) :
    lookupClient (List.foldl insertClient acc cs) cid = lookupClient acc cid := by
  induction cs generalizing acc with
  | nil => rfl
  | cons c tl ih =>
    simp only [List.map_cons, List.mem_cons, not_or] at h
    rw [List.foldl_cons, ih (insertClient acc c) h.2,
      lookupClient_insertClient_ne acc c cid h.1]

/-- A client id that is in none of the fetched clients is absent from the
built record. -/
theorem lookupClient_buildClientMap_not_mem
    (cs : List OAuthClientInformationFull) (cid : String)
    (h : cid ∉ cs.map (fun c => c.client_id)) :
    lookupClient (buildClientMap cs) cid = none := by
  rw [buildClientMap, lookupClient_foldl_not_mem cs [] cid h]
  rfl

/-- Folding in a client list containing the id makes the lookup succeed. -/
theorem lookupClient_foldl_mem
    (cs : List OAuthClientInformationFull)
    (acc : List (String × OAuthClientInformationFull)) (cid : String)
    (h : cid ∈ cs.map (fun c => c.client_id)) :
    ∃ c, lookupClient (List.foldl insertClient acc cs) cid = some c := by
  induction cs generalizing acc with
  | nil => simp at h
  | cons c tl ih =>
    by_cases hm : cid ∈ tl.map (fun c => c.client_id)
    · exact ih (insertClient acc c) hm
    · simp only [List.map_cons, List.mem_cons] at h
      have hc : cid = c.client_id := h.resolve_right hm
      refine ⟨c, ?_⟩
      rw [List.foldl_cons, lookupClient_foldl_not_mem tl (insertClient acc c) cid hm, hc,
        lookupClient_insertClient_self]

/-- A client id occurring in the fetched clients is found in the built record. -/
theorem lookupClient_buildClientMap_mem
    (cs : List OAuthClientInformationFull) (cid : String)
    (h : cid ∈ cs.map (fun c => c.client_id)) :
    ∃ c, lookupClient (buildClientMap cs) cid = some c :=
  lookupClient_foldl_mem cs [] cid h

/-- Hex encoding of a non-empty byte list is non-empty. -/
theorem hexEncode_ne_empty (bs : List Nat) (h : bs ≠ []) : hexEncode bs ≠ "" := by
  cases bs with
  | nil => exact absurd rfl h
  | cons b tl =>
    intro hc
    have hd := congrArg String.data hc
    simp [hexEncode, hexEncodeList] at hd

/-- Evaluation of `introspectToken` when the backend URL is present and the
oracle answers with a successful introspection body. -/
theorem introspectToken_ok (o : OryOptions) (token : String) (oracle : Oracle)
    (i : IntrospectionBody)
    (hurl : backendUrlPresent o = true)
    (hok : (oracle 0).ok = true)
    (hbody : (oracle 0).body = .introspection i) :
    introspectToken o token oracle = (.ok i, [introspectRequest o token]) := by
  obtain ⟨eps, pt, hau, hak, nu, nk⟩ := o
  cases pt <;> simp_all [introspectToken, backendUrlPresent, introspectRequest]

/-- Evaluation of `fetchClients` when the backend URL is present and the
oracle answers with a successful, schema-valid client list. -/
theorem fetchClients_ok (o : OryOptions) (oracle : Oracle)
    (rcs : List RawClient) (cs : List OAuthClientInformationFull)
    (hurl : backendUrlPresent o = true)
    (hok : (oracle 0).ok = true)
    (hbody : (oracle 0).body = .clients rcs)
    (hparse : parseClients rcs = .ok cs) :
    fetchClients o oracle = (.ok cs, [clientListRequest o]) := by
  obtain ⟨eps, pt, hau, hak, nu, nk⟩ := o
  cases pt <;> simp_all [fetchClients, backendUrlPresent]

/-- Whatever the oracle answers, `fetchClients` with a present backend URL
issues exactly the client-list request. -/
theorem fetchClients_requests (o : OryOptions) (oracle : Oracle)
    (hurl : backendUrlPresent o = true) :
    (fetchClients o oracle).2 = [clientListRequest o] := by
  obtain ⟨eps, pt, hau, hak, nu, nk⟩ := o
  cases pt <;>
    · simp only [backendUrlPresent] at hurl
      simp only [fetchClients, hurl, Bool.not_true, Bool.false_eq_true, if_false]
      split
      · rfl
      · split <;> first | rfl | (split <;> rfl)

/-- The requests of `getClient` are exactly those of `fetchClients`. -/
theorem getClient_requests (o : OryOptions) (cid : String) (oracle : Oracle) :
    (getClient o cid oracle).2 = (fetchClients o oracle).2 := by
  unfold getClient listOAuth2Clients
  rcases hf : fetchClients o oracle with ⟨r, reqs⟩
  cases r <;> simp

/-- The introspection request is a POST for both backends. -/
theorem introspectRequest_method (o : OryOptions) (token : String) :
    (introspectRequest o token).method = "POST" := by
  obtain ⟨eps, pt, hau, hak, nu, nk⟩ := o
  cases pt <;> rfl

/-- C1: when the introspection response reports `active = false`,
`verifyAccessToken` fails with an error whose message matches "not active",
and exactly one outbound call — the introspection POST — is made; the
client-list fetch is never issued. -/
theorem C1_verifyAccessToken_inactive (o : OryOptions) (token : String)
    (oracle : Oracle) (i : IntrospectionBody)
    (hurl : backendUrlPresent o = true)
    (hok : (oracle 0).ok = true)
    (hbody : (oracle 0).body = .introspection i)
    (hinactive : i.active = false) :
    verifyAccessToken o token oracle =
      (.error (.err "Token is not active"), [introspectRequest o token]) ∧
    strContains "Token is not active" "not active" = true ∧
    (introspectRequest o token).method = "POST" := by
  refine ⟨?_, by decide, introspectRequest_method o token⟩
  have h := introspectToken_ok o token oracle i hurl hok hbody
  simp [verifyAccessToken, h, hinactive]

/-- Witness for C1 at a concrete network configuration and oracle. -/
theorem C1_witness :
    backendUrlPresent oNet = true ∧
    (oracleInactive 0).ok = true ∧
    (oracleInactive 0).body = .introspection introInactiveW ∧
    introInactiveW.active = false ∧
    (verifyAccessToken oNet "inactive-token" oracleInactive =
        (.error (.err "Token is not active"), [introspectRequest oNet "inactive-token"]) ∧
      strContains "Token is not active" "not active" = true ∧
      (introspectRequest oNet "inactive-token").method = "POST") :=
  ⟨by decide, by decide, by decide, by decide,
   C1_verifyAccessToken_inactive oNet "inactive-token" oracleInactive introInactiveW
     (by decide) (by decide) (by decide) (by decide)⟩

/-- C2: when introspection reports an active token whose `client_id` occurs in
the fetched client list, `verifyAccessToken` returns exactly the token, the
introspected client id, the scope split on spaces (empty when absent), and
the introspected expiry. -/
theorem C2_verifyAccessToken_success (o : OryOptions) (token : String)
    (oracle : Oracle) (i : IntrospectionBody) (rcs : List RawClient)
    (cs : List OAuthClientInformationFull)
    (hurl : backendUrlPresent o = true)
    (h0ok : (oracle 0).ok = true)
    (h0body : (oracle 0).body = .introspection i)
    (hactive : i.active = true)
    (h1ok : (oracle 1).ok = true)
    (h1body : (oracle 1).body = .clients rcs)
    (hparse : parseClients rcs = .ok cs)
    (hmem : i.client_id ∈ cs.map (fun c => c.client_id)) :
    (verifyAccessToken o token oracle).1 =
      .ok { token := token
            clientId := i.client_id
            scopes := (i.scope.map (fun s => s.splitOn " ")).getD []
            expiresAt := i.exp } := by
  have h1 := introspectToken_ok o token oracle i hurl h0ok h0body
  have h2 := fetchClients_ok o (fun n => oracle (n + 1)) rcs cs hurl h1ok h1body hparse
  obtain ⟨c, hc⟩ := lookupClient_buildClientMap_mem cs i.client_id hmem
  simp [verifyAccessToken, h1, hactive, listOAuth2Clients, h2, hc]

/-- Witness for C2 at a concrete network configuration and oracle. -/
theorem C2_witness :
    backendUrlPresent oNet = true ∧
    (oracleActiveThenClients 0).ok = true ∧
    (oracleActiveThenClients 0).body = .introspection introActiveW ∧
    introActiveW.active = true ∧
    (oracleActiveThenClients 1).ok = true ∧
    (oracleActiveThenClients 1).body = .clients [rawClientW] ∧
    parseClients [rawClientW] = .ok [clientW] ∧
    introActiveW.client_id ∈ [clientW].map (fun c => c.client_id) ∧
    (verifyAccessToken oNet "test-token" oracleActiveThenClients).1 =
      .ok { token := "test-token"
            clientId := introActiveW.client_id
            scopes := (introActiveW.scope.map (fun s => s.splitOn " ")).getD []
            expiresAt := introActiveW.exp } :=
  ⟨by decide, by decide, by decide, by decide, by decide, by decide, rfl, by decide,
   C2_verifyAccessToken_success oNet "test-token" oracleActiveThenClients introActiveW
     [rawClientW] [clientW] (by decide) (by decide) (by decide) (by decide) (by decide)
     (by decide) rfl (by decide)⟩

/-- C9: when the list fetch succeeds with a schema-valid client list that does
not contain the requested id, `getClient` returns the not-found value rather
than an error. -/
theorem C9_getClient_missing (o : OryOptions) (oracle : Oracle) (cid : String)
    (rcs : List RawClient) (cs : List OAuthClientInformationFull)
    (hurl : backendUrlPresent o = true)
    (hok : (oracle 0).ok = true)
    (hbody : (oracle 0).body = .clients rcs)
    (hparse : parseClients rcs = .ok cs)
    (hmem : cid ∉ cs.map (fun c => c.client_id)) :
    (getClient o cid oracle).1 = .ok none := by
  have h := fetchClients_ok o oracle rcs cs hurl hok hbody hparse
  simp [getClient, listOAuth2Clients, h,
    lookupClient_buildClientMap_not_mem cs cid hmem]

/-- Witness for C9 at a concrete network configuration and oracle. -/
theorem C9_witness :
    backendUrlPresent oNet = true ∧
    (oracleClientsW 0).ok = true ∧
    (oracleClientsW 0).body = .clients [rawClientW] ∧
    parseClients [rawClientW] = .ok [clientW] ∧
    "non-existent-client" ∉ [clientW].map (fun c => c.client_id) ∧
    (getClient oNet "non-existent-client" oracleClientsW).1 = .ok none :=
  ⟨by decide, by decide, by decide, rfl, by decide,
   C9_getClient_missing oNet oracleClientsW "non-existent-client" [rawClientW] [clientW]
     (by decide) (by decide) (by decide) rfl (by decide)⟩

/-- C3: the redirect targets the configured authorization URL and always
carries `client_id`, `response_type=code`, `redirect_uri`, `code_challenge`
and `code_challenge_method=S256` (never plain); an empty scope list is first
replaced by the default `["ory.admin"]`, and the `scope` and `state`
parameters appear exactly when present/non-empty after that defaulting. -/
theorem C3_authorize_redirect (o : OryOptions) (client : OAuthClientInformationFull)
    (params : AuthorizationParams) (bytes : List Nat) :
    (authorize o client params bytes).2.base = o.endpoints.authorizationUrl ∧
    queryLookup (authorize o client params bytes).2.query "client_id" =
      some client.client_id ∧
    queryLookup (authorize o client params bytes).2.query "response_type" =
      some "code" ∧
    queryLookup (authorize o client params bytes).2.query "redirect_uri" =
      some params.redirectUri ∧
    queryLookup (authorize o client params bytes).2.query "code_challenge" =
      some params.codeChallenge ∧
    queryLookup (authorize o client params bytes).2.query "code_challenge_method" =
      some "S256" ∧
    (params.scopes = some [] →
      queryLookup (authorize o client params bytes).2.query "scope" =
        some "ory.admin") ∧
    (queryLookup (authorize o client params bytes).2.query "scope" =
      if scopesTruthy (defaultedScopes params.scopes) then
        some (String.intercalate " " ((defaultedScopes params.scopes).getD []))
      else none) ∧
    (queryLookup (authorize o client params bytes).2.query "state" =
      if strTruthy (defaultedState params.state bytes) then
        some (jsStr (defaultedState params.state bytes))
      else none) := by
  refine ⟨rfl, rfl, rfl, rfl, rfl, rfl, ?_, ?_, ?_⟩
  · intro hsc
    have hd : defaultedScopes params.scopes = some ["ory.admin"] := by
      simp [defaultedScopes, scopesEmpty, hsc]
    cases h1 : strTruthy (defaultedState params.state bytes) <;>
      simp [authorize, queryLookup, h1, hd, scopesTruthy, String.intercalate] <;>
        rfl
  · cases h1 : strTruthy (defaultedState params.state bytes) <;>
      cases h2 : scopesTruthy (defaultedScopes params.scopes) <;>
        simp [authorize, queryLookup, h1, h2]
  · cases h1 : strTruthy (defaultedState params.state bytes) <;>
      cases h2 : scopesTruthy (defaultedScopes params.scopes) <;>
        simp [authorize, queryLookup, h1, h2]

/-- Witness for C3 at a concrete configuration with an empty scope list. -/
theorem C3_witness :
    queryLookup (authorize oNet clientW paramsScopesEmpty bytesW).2.query
      "code_challenge_method" = some "S256" ∧
    queryLookup (authorize oNet clientW paramsScopesEmpty bytesW).2.query
      "scope" = some "ory.admin" := by
  obtain ⟨-, -, -, -, -, h6, h7, -, -⟩ :=
    C3_authorize_redirect oNet clientW paramsScopesEmpty bytesW
  exact ⟨h6, h7 rfl⟩

/-- C5: for a network configuration `getClient` issues exactly one GET to the
project URL plus `/admin/clients` with a Bearer header carrying the project
API key; for a hydra configuration the same operation targets the hydra admin
URL plus `/admin/clients` with the hydra API key. -/
theorem C5_getClient_request (o : OryOptions) (oracle : Oracle) (clientId u k : String) :
    (o.providerType = .network → o.networkProjectUrl = some u → u ≠ "" →
      o.networkProjectApiKey = some k →
      (getClient o clientId oracle).2 =
        [{ method := "GET", url := u ++ "/admin/clients",
           headers := [("Authorization", "Bearer " ++ k),
                       ("Content-Type", "application/json")],
           body := none }]) ∧
    (o.providerType = .hydra → o.hydraAdminUrl = some u → u ≠ "" →
      o.hydraApiKey = some k →
      (getClient o clientId oracle).2 =
        [{ method := "GET", url := u ++ "/admin/clients",
           headers := [("Authorization", "Bearer " ++ k),
                       ("Content-Type", "application/json")],
           body := none }]) := by
  constructor <;> intro hpt hu hne hk
  · have hurl : backendUrlPresent o = true := by
      simp [backendUrlPresent, hpt, hu, strTruthy, hne]
    rw [getClient_requests, fetchClients_requests o oracle hurl]
    simp [clientListRequest, hpt, hu, hk, jsStr]
  · have hurl : backendUrlPresent o = true := by
      simp [backendUrlPresent, hpt, hu, strTruthy, hne]
    rw [getClient_requests, fetchClients_requests o oracle hurl]
    simp [clientListRequest, hpt, hu, hk, jsStr]

/-- Witness for C5 at a concrete network configuration. -/
theorem C5_witness :
    oNet.providerType = .network ∧
    oNet.networkProjectUrl = some "https://network.example.com/admin" ∧
    "https://network.example.com/admin" ≠ "" ∧
    oNet.networkProjectApiKey = some "network-api-key" ∧
    (getClient oNet "test-client" oracleClientsW).2 =
      [{ method := "GET", url := "https://network.example.com/admin" ++ "/admin/clients",
         headers := [("Authorization", "Bearer " ++ "network-api-key"),
                     ("Content-Type", "application/json")],
         body := none }] :=
  ⟨rfl, rfl, by decide, rfl,
   (C5_getClient_request oNet oracleClientsW "test-client"
      "https://network.example.com/admin" "network-api-key").1 rfl rfl (by decide) rfl⟩

/-- C6: on a non-2xx token-endpoint response, `exchangeAuthorizationCode`
fails with an error whose message contains the literal phrase "Token exchange
failed" and the numeric HTTP status; on a 2xx response it returns the
schema-validated token set. -/
theorem C6_exchangeAuthorizationCode_status (o : OryOptions)
    (client : OAuthClientInformationFull) (code : String)
    (verifier : Option String) (oracle : Oracle) :
    ((oracle 0).ok = false →
      (exchangeAuthorizationCode o client code verifier oracle).1 =
        .error (.serverErr ("Token exchange failed: " ++ toString (oracle 0).status)) ∧
      strContains ("Token exchange failed: " ++ toString (oracle 0).status)
        "Token exchange failed" = true ∧
      strContains ("Token exchange failed: " ++ toString (oracle 0).status)
        (toString (oracle 0).status) = true) ∧
    (∀ rt t, (oracle 0).ok = true → (oracle 0).body = .tokens rt →
      parseTokens rt = .ok t →
      (exchangeAuthorizationCode o client code verifier oracle).1 = .ok t) := by
  constructor
  · intro h
    refine ⟨by simp [exchangeAuthorizationCode, h], ?_, ?_⟩
    · have hp : charListPre ("Token exchange failed".toList)
          ("Token exchange failed: ".toList) = true := by decide
      exact strContains_of_pre _ _ _ hp
    · exact strContains_append_right _ _
  · intro rt t hok hbody hparse
    simp [exchangeAuthorizationCode, hok, hbody, hparse]

/-- Witness for C6 at a concrete 400 response. -/
theorem C6_witness :
    (oracleTokenFail 0).ok = false ∧
    (exchangeAuthorizationCode oNet clientW "auth-code" (some "verifier")
        oracleTokenFail).1 =
      .error (.serverErr ("Token exchange failed: " ++ toString (oracleTokenFail 0).status)) :=
  ⟨rfl, ((C6_exchangeAuthorizationCode_status oNet clientW "auth-code" (some "verifier")
      oracleTokenFail).1 rfl).1⟩

/-- C4 counterexample: with the network base URL present but the API key
absent, `fetchClients` still issues a network request — carrying the literal
header value "Bearer undefined" — instead of failing fast before any call. -/
theorem C4_counterexample :
    oNoKey.networkProjectApiKey = none ∧
    (fetchClients oNoKey oracleEmptyClients).2 =
      [{ method := "GET", url := "https://proj.example.com/admin/clients",
         headers := [("Authorization", "Bearer undefined"),
                     ("Content-Type", "application/json")],
         body := none }] := by decide

/-- C4 amended: only the base URL of the matching pair is validated — when it
is absent or empty, both the client-list fetch and the introspection call
fail fast with a descriptive error before any network request. -/
theorem C4_amended_urlCheck (o : OryOptions) (oracle : Oracle) (token : String)
    (h : backendUrlPresent o = false) :
    fetchClients o oracle = (.error (.err (missingUrlMsg o)), []) ∧
    introspectToken o token oracle = (.error (.err (missingUrlMsg o)), []) := by
  obtain ⟨eps, pt, hau, hak, nu, nk⟩ := o
  cases pt <;> simp_all [fetchClients, introspectToken, backendUrlPresent, missingUrlMsg]

/-- Witness for the amended C4 at a configuration missing its base URL. -/
theorem C4_witness :
    backendUrlPresent oNoUrl = false ∧
    (fetchClients oNoUrl oracleEmptyClients =
        (.error (.err (missingUrlMsg oNoUrl)), []) ∧
      introspectToken oNoUrl "test-token" oracleEmptyClients =
        (.error (.err (missingUrlMsg oNoUrl)), [])) :=
  ⟨by decide, C4_amended_urlCheck oNoUrl oracleEmptyClients "test-token" (by decide)⟩

/-- C7 counterexample: with the state set to the empty string, the redirect
does not echo the supplied value — a fresh value is generated instead. -/
theorem C7_counterexample :
    paramsStateEmpty.state = some "" ∧
    queryLookup (authorize oNet clientW paramsStateEmpty bytesW).2.query "state" ≠
      some "" := by decide

/-- C7 amended: with the state unset or empty, the redirect carries the hex
encoding of the 32 random bytes, which is non-empty; with the state set to a
non-empty value, the redirect echoes it unchanged. -/
theorem C7_amended_state (o : OryOptions) (client : OAuthClientInformationFull)
    (params : AuthorizationParams) (bytes : List Nat)
    (hlen : bytes.length = 32) :
    (strTruthy params.state = false →
      queryLookup (authorize o client params bytes).2.query "state" =
        some (hexEncode bytes) ∧ hexEncode bytes ≠ "") ∧
    (∀ s, params.state = some s → s ≠ "" →
      queryLookup (authorize o client params bytes).2.query "state" = some s) := by
  have hne : bytes ≠ [] := by
    intro hb
    rw [hb] at hlen
    simp at hlen
  have hxe : hexEncode bytes ≠ "" := hexEncode_ne_empty bytes hne
  constructor
  · intro h
    have hd : defaultedState params.state bytes = some (hexEncode bytes) := by
      simp [defaultedState, h]
    have ht : strTruthy (some (hexEncode bytes)) = true := by
      simp [strTruthy, hxe]
    refine ⟨?_, hxe⟩
    cases h2 : scopesTruthy (defaultedScopes params.scopes) <;>
      simp [authorize, queryLookup, ht, hd, h2, jsStr]
  · intro s hs hsne
    have hd : defaultedState params.state bytes = some s := by
      simp [defaultedState, strTruthy, hs, hsne]
    have ht : strTruthy (some s) = true := by
      simp [strTruthy, hsne]
    cases h2 : scopesTruthy (defaultedScopes params.scopes) <;>
      simp [authorize, queryLookup, ht, hd, h2, jsStr]

/-- Witness for the amended C7 at a concrete state-less call. -/
theorem C7_witness :
    bytesW.length = 32 ∧
    ((strTruthy paramsNoState.state = false →
        queryLookup (authorize oNet clientW paramsNoState bytesW).2.query "state" =
          some (hexEncode bytesW) ∧ hexEncode bytesW ≠ "") ∧
      (∀ s, paramsNoState.state = some s → s ≠ "" →
        queryLookup (authorize oNet clientW paramsNoState bytesW).2.query "state" =
          some s)) :=
  ⟨by decide, C7_amended_state oNet clientW paramsNoState bytesW (by decide)⟩

/-- C8 counterexample: registration and revocation URLs set to the empty
string are configured (present) yet neither capability is offered. -/
theorem C8_counterexample :
    oEmptyUrls.endpoints.registrationUrl ≠ none ∧
    registerClientDefined oEmptyUrls = false ∧
    oEmptyUrls.endpoints.revocationUrl ≠ none ∧
    revokeTokenDefined oEmptyUrls = false := by decide

/-- C8 amended: the capabilities are offered exactly when the corresponding
URL is set to a non-empty string (JS truthiness; an empty string counts as
unconfigured), and a defined `revokeToken` performs exactly one POST to the
configured revocation URL per invocation. -/
theorem C8_amended_capabilities (o : OryOptions) (client : OAuthClientInformationFull)
    (request : OAuthTokenRevocationRequest) (oracle : Oracle) (u : String) :
    registerClientDefined o = strTruthy o.endpoints.registrationUrl ∧
    revokeTokenDefined o = strTruthy o.endpoints.revocationUrl ∧
    (revokeTokenDefined o = true → o.endpoints.revocationUrl = some u →
      (revokeToken o client request oracle).2.map (fun r => (r.method, r.url)) =
        [("POST", u)]) := by
  refine ⟨rfl, rfl, ?_⟩
  intro hd hu
  have ht : strTruthy o.endpoints.revocationUrl = true := hd
  rw [hu] at ht
  cases hok : (oracle 0).ok <;>
    simp [revokeToken, ht, hu, hok, jsStr]

/-- Witness for the amended C8 at a concrete configuration with a revocation
URL. -/
theorem C8_witness :
    revokeTokenDefined oNet = true ∧
    oNet.endpoints.revocationUrl = some "https://auth.example.com/oauth2/revoke" ∧
    (revokeToken oNet clientW revReqW oracleEmptyClients).2.map
        (fun r => (r.method, r.url)) =
      [("POST", "https://auth.example.com/oauth2/revoke")] :=
  ⟨by decide, rfl,
   (C8_amended_capabilities oNet clientW revReqW oracleEmptyClients
      "https://auth.example.com/oauth2/revoke").2.2 (by decide) rfl⟩

/-- C10 counterexample: with the state set to the empty string, `authorize`
still overwrites it, a mutation outside those the claim enumerates. -/
theorem C10_counterexample :
    paramsStateEmpty.state = some "" ∧
    (authorize oNet clientW paramsStateEmpty bytesW).1.state ≠
      paramsStateEmpty.state := by decide

/-- C10 amended: `authorize` rewrites `params.state` exactly when it is unset
or empty (to the generated hex state) and `params.scopes` exactly when it is
the empty list (to the default scope list); the remaining params fields are
returned unchanged, and the configuration is only read. -/
theorem C10_authorize_mutation (o : OryOptions) (client : OAuthClientInformationFull)
    (params : AuthorizationParams) (bytes : List Nat) :
    (authorize o client params bytes).1.redirectUri = params.redirectUri ∧
    (authorize o client params bytes).1.codeChallenge = params.codeChallenge ∧
    ((authorize o client params bytes).1.state =
      if strTruthy params.state then params.state else some (hexEncode bytes)) ∧
    ((authorize o client params bytes).1.scopes =
      if scopesEmpty params.scopes then some ["ory.admin"] else params.scopes) :=
  ⟨rfl, rfl, rfl, rfl⟩

end OryMcp
